import Mathlib

/-!
Verification development for the marvin/niel swap subsystem of the
aosp12-marvin ART fork.

Part 1: the reclamation table.  `TableEntry` is embedded from
`niel/reclamation_table.h` (shipped alongside `runtime/mirror/object-inl.h`
in the source snapshot): a packed atomic flags byte (`bit_flags_`), an
8-bit application lock counter (`app_lock_counter_`), a 16-bit page count
and a 32-bit object address.  Machine bytes are modelled as `Nat` with
explicit `% 256` where the `uint8_t` store wraps.
-/

namespace NielSwap

def OCCUPIED_BIT_OFFSET : Nat := 0
def KERNEL_LOCK_BIT_OFFSET : Nat := 1
def RESIDENT_BIT_OFFSET : Nat := 2

/-- One reclamation-table slot, from `class TableEntry` in
`reclamation_table.h`.  `bit_flags` and `app_lock_counter` are
`std::atomic·uint8_t·` in the source, hence kept below 256 by every
operation; `num_pages` is `uint16_t`, `object_address` is `uint32_t`.
(`stub_back_pointer_` is only used by compiled code and carries no
semantics in the inspected surface.) -/
structure TableEntry where
  bit_flags : Nat
  app_lock_counter : Nat
  num_pages : Nat
  object_address : Nat
  deriving DecidableEq, Repr

/-- `GetBit`: `((bit_flags_.load() >> offset) & 0x1)`. -/
def GetBit (e : TableEntry) (off : Nat) : Bool :=
  ((e.bit_flags >>> off) &&& 1) == 1

/-- `SetBit`: `bit_flags_.fetch_or(1 << offset)`, stored back into the
`uint8_t`, hence the `% 256`. -/
def SetBit (e : TableEntry) (off : Nat) : TableEntry :=
  { e with bit_flags := (e.bit_flags ||| (1 <<< off)) % 256 }

/-- `ClearBit`: `bit_flags_.fetch_and(~(1 << offset))`; on the 8-bit flags
byte the complement of `1 << offset` is `255 ^^^ (1 <<< off)`. -/
def ClearBit (e : TableEntry) (off : Nat) : TableEntry :=
  { e with bit_flags := e.bit_flags &&& (255 ^^^ (1 <<< off)) }

def GetOccupiedBit (e : TableEntry) : Bool := GetBit e OCCUPIED_BIT_OFFSET
def SetOccupiedBit (e : TableEntry) : TableEntry := SetBit e OCCUPIED_BIT_OFFSET
def ClearOccupiedBit (e : TableEntry) : TableEntry := ClearBit e OCCUPIED_BIT_OFFSET

def GetKernelLockBit (e : TableEntry) : Bool := GetBit e KERNEL_LOCK_BIT_OFFSET
def SetKernelLockBit (e : TableEntry) : TableEntry := SetBit e KERNEL_LOCK_BIT_OFFSET
def ClearKernelLockBit (e : TableEntry) : TableEntry := ClearBit e KERNEL_LOCK_BIT_OFFSET

def GetResidentBit (e : TableEntry) : Bool := GetBit e RESIDENT_BIT_OFFSET
def SetResidentBit (e : TableEntry) : TableEntry := SetBit e RESIDENT_BIT_OFFSET
def ClearResidentBit (e : TableEntry) : TableEntry := ClearBit e RESIDENT_BIT_OFFSET

def GetAppLockCounter (e : TableEntry) : Nat := e.app_lock_counter

/-- `IncrAppLockCounter`: `app_lock_counter_++` on a `uint8_t`. -/
def IncrAppLockCounter (e : TableEntry) : TableEntry :=
  { e with app_lock_counter := (e.app_lock_counter + 1) % 256 }

/-- `DecrAppLockCounter`: `app_lock_counter_--` on a `uint8_t`; the two's
complement decrement of `c` is `(c + 255) % 256`, so decrementing 0
yields 255. -/
def DecrAppLockCounter (e : TableEntry) : TableEntry :=
  { e with app_lock_counter := (e.app_lock_counter + 255) % 256 }

def ZeroAppLockCounter (e : TableEntry) : TableEntry :=
  { e with app_lock_counter := 0 }

/-- The spin loop `while (GetKernelLockBit()) { continue; }` of
`LockFromAppThread`, with explicit fuel: each unit of fuel is one
evaluation of the loop condition.  In the sequential embedding no other
actor mutates the entry between iterations, so the loop exits on the
first check iff the kernel-lock bit is clear and otherwise exhausts any
amount of fuel (`none` = the spin never terminates). -/
def spinWhileKernelLocked : Nat → TableEntry → Option TableEntry
  | 0, _ => none
  | fuel + 1, e => if GetKernelLockBit e then spinWhileKernelLocked fuel e else some e

/-- `TableEntry::LockFromAppThread`: spin until `kernel_lock` is observed
clear; `IncrAppLockCounter()`; spin again; `IncrAppLockCounter()` a
second time.  `none` means the call never returns (a spin exhausted its
fuel). -/
def LockFromAppThread (fuel : Nat) (e : TableEntry) : Option TableEntry :=
  match spinWhileKernelLocked fuel e with
  | none => none
  | some e1 =>
    let e2 := IncrAppLockCounter e1
    match spinWhileKernelLocked fuel e2 with
    | none => none
    | some e3 => some (IncrAppLockCounter e3)

/-- `TableEntry::UnlockFromAppThread`: a single `DecrAppLockCounter()`. -/
def UnlockFromAppThread (e : TableEntry) : TableEntry :=
  DecrAppLockCounter e

/-- One uncontended `LockFromAppThread(); UnlockFromAppThread()` pair,
iterated `k` times. -/
def iterLockUnlock (fuel : Nat) : Nat → TableEntry → Option TableEntry
  | 0, e => some e
  | k + 1, e =>
    match LockFromAppThread fuel e with
    | none => none
    | some e1 => iterLockUnlock fuel k (UnlockFromAppThread e1)

lemma incr_bit_flags (e : TableEntry) : (IncrAppLockCounter e).bit_flags = e.bit_flags := rfl

lemma getKernelLockBit_incr (e : TableEntry) :
    GetKernelLockBit (IncrAppLockCounter e) = GetKernelLockBit e := rfl

lemma spin_of_clear {e : TableEntry} (h : GetKernelLockBit e = false) :
    ∀ {fuel : Nat}, 0 < fuel → spinWhileKernelLocked fuel e = some e := by
  intro fuel hf
  cases fuel with
  | zero => exact absurd hf (by omega)
  | succ n => simp [spinWhileKernelLocked, h]

lemma spin_of_locked {e : TableEntry} (h : GetKernelLockBit e = true) :
    ∀ fuel, spinWhileKernelLocked fuel e = none := by
  intro fuel
  induction fuel with
  | zero => rfl
  | succ n ih => simp [spinWhileKernelLocked, h, ih]

lemma lockFromAppThread_of_clear {e : TableEntry} (h : GetKernelLockBit e = false)
    {fuel : Nat} (hf : 0 < fuel) :
    LockFromAppThread fuel e = some (IncrAppLockCounter (IncrAppLockCounter e)) := by
  have h2 : GetKernelLockBit (IncrAppLockCounter e) = false := by
    rw [getKernelLockBit_incr]; exact h
  simp [LockFromAppThread, spin_of_clear h hf, spin_of_clear h2 hf]

lemma bitFacts : ∀ x : Fin 256, ∀ i : Fin 3, ∀ j : Fin 3,
    (((((x.val ||| (1 <<< i.val)) % 256) >>> j.val) &&& 1 == 1)
        = if j.val = i.val then true else ((x.val >>> j.val) &&& 1 == 1))
    ∧ ((((x.val &&& (255 ^^^ (1 <<< i.val))) >>> j.val) &&& 1 == 1)
        = if j.val = i.val then false else ((x.val >>> j.val) &&& 1 == 1))
    ∧ ((x.val ||| (1 <<< i.val)) % 256 < 256)
    ∧ (x.val &&& (255 ^^^ (1 <<< i.val)) < 256) := by
  set_option maxRecDepth 10000 in decide

lemma getBit_setBit (e : TableEntry) (h : e.bit_flags < 256) {i j : Nat}
    (hi : i < 3) (hj : j < 3) :
    GetBit (SetBit e i) j = if j = i then true else GetBit e j :=
  (bitFacts ⟨e.bit_flags, h⟩ ⟨i, hi⟩ ⟨j, hj⟩).1

lemma getBit_clearBit (e : TableEntry) (h : e.bit_flags < 256) {i j : Nat}
    (hi : i < 3) (hj : j < 3) :
    GetBit (ClearBit e i) j = if j = i then false else GetBit e j :=
  (bitFacts ⟨e.bit_flags, h⟩ ⟨i, hi⟩ ⟨j, hj⟩).2.1

lemma setBit_flags_lt (e : TableEntry) (h : e.bit_flags < 256) {i : Nat} (hi : i < 3) :
    (SetBit e i).bit_flags < 256 :=
  (bitFacts ⟨e.bit_flags, h⟩ ⟨i, hi⟩ ⟨0, by omega⟩).2.2.1

lemma clearBit_flags_lt (e : TableEntry) (h : e.bit_flags < 256) {i : Nat} (hi : i < 3) :
    (ClearBit e i).bit_flags < 256 :=
  (bitFacts ⟨e.bit_flags, h⟩ ⟨i, hi⟩ ⟨0, by omega⟩).2.2.2

lemma getBit_eq_testBit (e : TableEntry) (off : Nat) :
    GetBit e off = e.bit_flags.testBit off := by
  simp only [GetBit, Nat.testBit_to_div_mod, Nat.shiftRight_eq_div_pow, Nat.and_one_is_mod]
  by_cases h : e.bit_flags / 2 ^ off % 2 = 1 <;> simp [h]

/-- Concrete entry with only the occupied bit set: kernel-lock clear,
non-resident, counter 5, 3 pages, payload address 4096. -/
def entClear : TableEntry := ⟨1, 5, 3, 4096⟩

/-- Concrete entry with the occupied and kernel-lock bits set. -/
def entLocked : TableEntry := ⟨3, 5, 3, 4096⟩

end NielSwap

open NielSwap

/-- Claim C2: on a `TableEntry` whose `kernel_lock` bit is clear (and stays
clear, no kernel activity occurring in the sequential embedding), one
`LockFromAppThread` increments `app_lock_counter` exactly twice, leaving it
at `(c + 2) % 256`, and one subsequent `UnlockFromAppThread` decrements it
exactly once, so the pair leaves the counter at `(c + 1) % 256` — `+1` in
the counter's own 8-bit arithmetic relative to the pre-call value `c`,
not a balanced result.  All other entry fields are untouched. -/
theorem C2_lock_unlock_net_plus_one (e : TableEntry) (fuel : Nat)
    (hk : GetKernelLockBit e = false) (hf : 0 < fuel) :
    ∃ e1, LockFromAppThread fuel e = some e1
      ∧ e1.app_lock_counter = (e.app_lock_counter + 2) % 256
      ∧ (UnlockFromAppThread e1).app_lock_counter = (e.app_lock_counter + 1) % 256
      ∧ e1.bit_flags = e.bit_flags
      ∧ e1.num_pages = e.num_pages
      ∧ e1.object_address = e.object_address := by
  refine ⟨IncrAppLockCounter (IncrAppLockCounter e),
    lockFromAppThread_of_clear hk hf, ?_, ?_, rfl, rfl, rfl⟩
  · simp only [IncrAppLockCounter]
    omega
  · simp only [UnlockFromAppThread, DecrAppLockCounter, IncrAppLockCounter]
    omega

/-- Witness for C2 at the concrete entry `entClear` with fuel 2. -/
theorem C2_lock_unlock_net_plus_one_witness :
    GetKernelLockBit entClear = false ∧ 0 < 2
    ∧ ∃ e1, LockFromAppThread 2 entClear = some e1
        ∧ e1.app_lock_counter = (entClear.app_lock_counter + 2) % 256
        ∧ (UnlockFromAppThread e1).app_lock_counter = (entClear.app_lock_counter + 1) % 256
        ∧ e1.bit_flags = entClear.bit_flags
        ∧ e1.num_pages = entClear.num_pages
        ∧ e1.object_address = entClear.object_address :=
  ⟨by decide, by decide, C2_lock_unlock_net_plus_one entClear 2 (by decide) (by decide)⟩

/-- Claim C8: `LockFromAppThread` has no timeout or cancellation.  On an
entry whose `kernel_lock` bit is (and, sequentially, remains) set, the
first spin consumes any amount of fuel without returning; on an entry
whose `kernel_lock` bit is clear it terminates. -/
theorem C8_lock_spins_forever_or_terminates (e : TableEntry) (fuel : Nat) :
    (GetKernelLockBit e = true → LockFromAppThread fuel e = none)
    ∧ (GetKernelLockBit e = false → 0 < fuel →
        ∃ e1, LockFromAppThread fuel e = some e1) := by
  constructor
  · intro h
    simp [LockFromAppThread, spin_of_locked h]
  · intro h hf
    exact ⟨_, lockFromAppThread_of_clear h hf⟩

/-- Witness for C8: at `entLocked` every fuel bound is exhausted; at
`entClear` the call returns. -/
theorem C8_lock_spins_forever_or_terminates_witness :
    (GetKernelLockBit entLocked = true ∧ LockFromAppThread 7 entLocked = none)
    ∧ (GetKernelLockBit entClear = false ∧ 0 < 7
        ∧ ∃ e1, LockFromAppThread 7 entClear = some e1) :=
  ⟨⟨by decide, (C8_lock_spins_forever_or_terminates entLocked 7).1 (by decide)⟩,
   ⟨by decide, by decide,
    (C8_lock_spins_forever_or_terminates entClear 7).2 (by decide) (by decide)⟩⟩


/-- Claim C7: each single-bit mutator (`SetOccupiedBit`/`ClearOccupiedBit`,
`SetKernelLockBit`/`ClearKernelLockBit`, `SetResidentBit`/`ClearResidentBit`)
is a fetch-or / fetch-and on the shared flags byte that changes exactly its
own bit (offsets 0, 1, 2), leaving the other two flag bits,
`app_lock_counter`, `num_pages` and `object_address` unchanged; each `Get`
returns the current value of exactly its own bit of the flags byte. -/
theorem C7_bit_mutators_are_framed (e : TableEntry) (h : e.bit_flags < 256) :
    (GetOccupiedBit (SetOccupiedBit e) = true
      ∧ GetKernelLockBit (SetOccupiedBit e) = GetKernelLockBit e
      ∧ GetResidentBit (SetOccupiedBit e) = GetResidentBit e
      ∧ (SetOccupiedBit e).app_lock_counter = e.app_lock_counter
      ∧ (SetOccupiedBit e).num_pages = e.num_pages
      ∧ (SetOccupiedBit e).object_address = e.object_address)
    ∧ (GetOccupiedBit (ClearOccupiedBit e) = false
      ∧ GetKernelLockBit (ClearOccupiedBit e) = GetKernelLockBit e
      ∧ GetResidentBit (ClearOccupiedBit e) = GetResidentBit e
      ∧ (ClearOccupiedBit e).app_lock_counter = e.app_lock_counter
      ∧ (ClearOccupiedBit e).num_pages = e.num_pages
      ∧ (ClearOccupiedBit e).object_address = e.object_address)
    ∧ (GetKernelLockBit (SetKernelLockBit e) = true
      ∧ GetOccupiedBit (SetKernelLockBit e) = GetOccupiedBit e
      ∧ GetResidentBit (SetKernelLockBit e) = GetResidentBit e
      ∧ (SetKernelLockBit e).app_lock_counter = e.app_lock_counter
      ∧ (SetKernelLockBit e).num_pages = e.num_pages
      ∧ (SetKernelLockBit e).object_address = e.object_address)
    ∧ (GetKernelLockBit (ClearKernelLockBit e) = false
      ∧ GetOccupiedBit (ClearKernelLockBit e) = GetOccupiedBit e
      ∧ GetResidentBit (ClearKernelLockBit e) = GetResidentBit e
      ∧ (ClearKernelLockBit e).app_lock_counter = e.app_lock_counter
      ∧ (ClearKernelLockBit e).num_pages = e.num_pages
      ∧ (ClearKernelLockBit e).object_address = e.object_address)
    ∧ (GetResidentBit (SetResidentBit e) = true
      ∧ GetOccupiedBit (SetResidentBit e) = GetOccupiedBit e
      ∧ GetKernelLockBit (SetResidentBit e) = GetKernelLockBit e
      ∧ (SetResidentBit e).app_lock_counter = e.app_lock_counter
      ∧ (SetResidentBit e).num_pages = e.num_pages
      ∧ (SetResidentBit e).object_address = e.object_address)
    ∧ (GetResidentBit (ClearResidentBit e) = false
      ∧ GetOccupiedBit (ClearResidentBit e) = GetOccupiedBit e
      ∧ GetKernelLockBit (ClearResidentBit e) = GetKernelLockBit e
      ∧ (ClearResidentBit e).app_lock_counter = e.app_lock_counter
      ∧ (ClearResidentBit e).num_pages = e.num_pages
      ∧ (ClearResidentBit e).object_address = e.object_address)
    ∧ (GetOccupiedBit e = e.bit_flags.testBit OCCUPIED_BIT_OFFSET
      ∧ GetKernelLockBit e = e.bit_flags.testBit KERNEL_LOCK_BIT_OFFSET
      ∧ GetResidentBit e = e.bit_flags.testBit RESIDENT_BIT_OFFSET) := by
  have hs0 := fun (j : Nat) (hj : j < 3) =>
    getBit_setBit e h (i := 0) (by omega) hj
  have hs1 := fun (j : Nat) (hj : j < 3) =>
    getBit_setBit e h (i := 1) (by omega) hj
  have hs2 := fun (j : Nat) (hj : j < 3) =>
    getBit_setBit e h (i := 2) (by omega) hj
  have hc0 := fun (j : Nat) (hj : j < 3) =>
    getBit_clearBit e h (i := 0) (by omega) hj
  have hc1 := fun (j : Nat) (hj : j < 3) =>
    getBit_clearBit e h (i := 1) (by omega) hj
  have hc2 := fun (j : Nat) (hj : j < 3) =>
    getBit_clearBit e h (i := 2) (by omega) hj
  refine ⟨⟨?_, ?_, ?_, rfl, rfl, rfl⟩, ⟨?_, ?_, ?_, rfl, rfl, rfl⟩,
    ⟨?_, ?_, ?_, rfl, rfl, rfl⟩, ⟨?_, ?_, ?_, rfl, rfl, rfl⟩,
    ⟨?_, ?_, ?_, rfl, rfl, rfl⟩, ⟨?_, ?_, ?_, rfl, rfl, rfl⟩,
    getBit_eq_testBit e _, getBit_eq_testBit e _, getBit_eq_testBit e _⟩
  · simpa using hs0 0 (by omega)
  · simpa using hs0 1 (by omega)
  · simpa using hs0 2 (by omega)
  · simpa using hc0 0 (by omega)
  · simpa using hc0 1 (by omega)
  · simpa using hc0 2 (by omega)
  · simpa using hs1 1 (by omega)
  · simpa using hs1 0 (by omega)
  · simpa using hs1 2 (by omega)
  · simpa using hc1 1 (by omega)
  · simpa using hc1 0 (by omega)
  · simpa using hc1 2 (by omega)
  · simpa using hs2 2 (by omega)
  · simpa using hs2 0 (by omega)
  · simpa using hs2 1 (by omega)
  · simpa using hc2 2 (by omega)
  · simpa using hc2 0 (by omega)
  · simpa using hc2 1 (by omega)

/-- Witness for C7 at the concrete entry `entLocked`. -/
theorem C7_bit_mutators_are_framed_witness :
    entLocked.bit_flags < 256
    ∧ (GetOccupiedBit (SetOccupiedBit entLocked) = true
        ∧ GetKernelLockBit (SetOccupiedBit entLocked) = GetKernelLockBit entLocked
        ∧ GetResidentBit (SetOccupiedBit entLocked) = GetResidentBit entLocked
        ∧ (SetOccupiedBit entLocked).app_lock_counter = entLocked.app_lock_counter
        ∧ (SetOccupiedBit entLocked).num_pages = entLocked.num_pages
        ∧ (SetOccupiedBit entLocked).object_address = entLocked.object_address)
      ∧ (GetOccupiedBit (ClearOccupiedBit entLocked) = false
        ∧ GetKernelLockBit (ClearOccupiedBit entLocked) = GetKernelLockBit entLocked
        ∧ GetResidentBit (ClearOccupiedBit entLocked) = GetResidentBit entLocked
        ∧ (ClearOccupiedBit entLocked).app_lock_counter = entLocked.app_lock_counter
        ∧ (ClearOccupiedBit entLocked).num_pages = entLocked.num_pages
        ∧ (ClearOccupiedBit entLocked).object_address = entLocked.object_address)
      ∧ (GetKernelLockBit (SetKernelLockBit entLocked) = true
        ∧ GetOccupiedBit (SetKernelLockBit entLocked) = GetOccupiedBit entLocked
        ∧ GetResidentBit (SetKernelLockBit entLocked) = GetResidentBit entLocked
        ∧ (SetKernelLockBit entLocked).app_lock_counter = entLocked.app_lock_counter
        ∧ (SetKernelLockBit entLocked).num_pages = entLocked.num_pages
        ∧ (SetKernelLockBit entLocked).object_address = entLocked.object_address)
      ∧ (GetKernelLockBit (ClearKernelLockBit entLocked) = false
        ∧ GetOccupiedBit (ClearKernelLockBit entLocked) = GetOccupiedBit entLocked
        ∧ GetResidentBit (ClearKernelLockBit entLocked) = GetResidentBit entLocked
        ∧ (ClearKernelLockBit entLocked).app_lock_counter = entLocked.app_lock_counter
        ∧ (ClearKernelLockBit entLocked).num_pages = entLocked.num_pages
        ∧ (ClearKernelLockBit entLocked).object_address = entLocked.object_address)
      ∧ (GetResidentBit (SetResidentBit entLocked) = true
        ∧ GetOccupiedBit (SetResidentBit entLocked) = GetOccupiedBit entLocked
        ∧ GetKernelLockBit (SetResidentBit entLocked) = GetKernelLockBit entLocked
        ∧ (SetResidentBit entLocked).app_lock_counter = entLocked.app_lock_counter
        ∧ (SetResidentBit entLocked).num_pages = entLocked.num_pages
        ∧ (SetResidentBit entLocked).object_address = entLocked.object_address)
      ∧ (GetResidentBit (ClearResidentBit entLocked) = false
        ∧ GetOccupiedBit (ClearResidentBit entLocked) = GetOccupiedBit entLocked
        ∧ GetKernelLockBit (ClearResidentBit entLocked) = GetKernelLockBit entLocked
        ∧ (ClearResidentBit entLocked).app_lock_counter = entLocked.app_lock_counter
        ∧ (ClearResidentBit entLocked).num_pages = entLocked.num_pages
        ∧ (ClearResidentBit entLocked).object_address = entLocked.object_address)
      ∧ (GetOccupiedBit entLocked = entLocked.bit_flags.testBit OCCUPIED_BIT_OFFSET
        ∧ GetKernelLockBit entLocked = entLocked.bit_flags.testBit KERNEL_LOCK_BIT_OFFSET
        ∧ GetResidentBit entLocked = entLocked.bit_flags.testBit RESIDENT_BIT_OFFSET) :=
  ⟨by decide, C7_bit_mutators_are_framed entLocked (by decide)⟩

lemma unlock_double_incr (x c p a : Nat) :
    UnlockFromAppThread
        (IncrAppLockCounter (IncrAppLockCounter (TableEntry.mk x c p a)))
      = TableEntry.mk x ((c + 1) % 256) p a := by
  simp only [UnlockFromAppThread, DecrAppLockCounter, IncrAppLockCounter]
  congr 1
  omega

lemma iter_lockUnlock_counter {fuel : Nat} (hf : 0 < fuel) (x p a : Nat)
    (hk : GetKernelLockBit (TableEntry.mk x 0 p a) = false) :
    ∀ k c, c < 256 →
      iterLockUnlock fuel k (TableEntry.mk x c p a)
        = some (TableEntry.mk x ((c + k) % 256) p a) := by
  intro k
  induction k with
  | zero =>
    intro c hc
    simp only [iterLockUnlock]
    congr 2
    omega
  | succ n ih =>
    intro c hc
    have hk2 : GetKernelLockBit (TableEntry.mk x c p a) = false := hk
    simp only [iterLockUnlock, lockFromAppThread_of_clear hk2 hf, unlock_double_incr]
    rw [ih ((c + 1) % 256) (by omega)]
    congr 2
    omega

/-- Claim C10: `app_lock_counter` is an 8-bit counter with wrap-around
arithmetic: `DecrAppLockCounter` (and hence `UnlockFromAppThread`) on an
entry whose counter is 0 leaves the counter at 255, and the net `+1` left
by each uncontended `LockFromAppThread`/`UnlockFromAppThread` pair returns
the counter — indeed the whole entry — to its starting value after exactly
256 such pairs. -/
theorem C10_counter_is_mod_256 (e : TableEntry) (fuel : Nat)
    (hk : GetKernelLockBit e = false) (hc : e.app_lock_counter < 256)
    (hf : 0 < fuel) :
    (DecrAppLockCounter (ZeroAppLockCounter e)).app_lock_counter = 255
    ∧ (UnlockFromAppThread (ZeroAppLockCounter e)).app_lock_counter = 255
    ∧ iterLockUnlock fuel 256 e = some e := by
  refine ⟨rfl, rfl, ?_⟩
  obtain ⟨x, c, p, a⟩ := e
  have hc2 : c < 256 := hc
  rw [iter_lockUnlock_counter hf x p a hk 256 c hc2]
  congr 2
  omega

/-- Witness for C10 at the concrete entry `entClear` with fuel 1. -/
theorem C10_counter_is_mod_256_witness :
    GetKernelLockBit entClear = false ∧ entClear.app_lock_counter < 256 ∧ 0 < 1
    ∧ ((DecrAppLockCounter (ZeroAppLockCounter entClear)).app_lock_counter = 255
      ∧ (UnlockFromAppThread (ZeroAppLockCounter entClear)).app_lock_counter = 255
      ∧ iterLockUnlock 1 256 entClear = some entClear) :=
  ⟨by decide, by decide, by decide,
   C10_counter_is_mod_256 entClear 1 (by decide) (by decide) (by decide)⟩

/-!
Part 2: the stub indirection protocol over `runtime/mirror/object-inl.h`.

An accessed heap object is modelled together with its reclamation-table
entry, the resident payload at the entry's `object_address`, and the
evicted payload held by secondary storage.  Field accessors are embedded
from their source bodies; each returns the updated machine, the value (if
any) and a trace of stub-protocol events so that redirection (or its
absence) is observable.  The `Stub` class, the `SWAP_PREAMBLE` macro
family and `SwapInOnDemand` come from `niel_swap.h`/`niel_stub.h`, which
are not part of the source snapshot; those pieces are modelled from the
spec and marked as such below.
-/

namespace MirrorObject

/-- A heap object as seen by the accessors: its header stub flag
(`GetStubFlag`), the ignore-read flag and read/write/dirty header bits
touched by the marvin hooks, its base address and its raw field memory
(offset, value). -/
structure Obj where
  stubFlag : Bool
  ignoreReadFlag : Bool
  readBit : Bool
  writeBit : Bool
  dirtyBit : Bool
  addr : Nat
  fields : Nat → Nat

/-- Pointwise store update for raw field memory. -/
def setAt (f : Nat → Nat) (k v : Nat) : Nat → Nat :=
  fun i => if i = k then v else f i

/-- The machine over which an accessor executes: the object the caller
holds (`obj`, possibly a stub), the stub's `TableEntry` (resolved via the
stub's back-pointer), the resident payload at `entry.object_address`, and
the evicted payload image in secondary storage. -/
structure Mach where
  obj : Obj
  entry : NielSwap.TableEntry
  payload : Obj
  storage : Obj

/-- Stub-protocol events, in the order an accessor emits them. -/
inductive SEv where
  | lockEntry
  | swapIn
  | forwardOp
  | populateFrom
  | unlockEntry
  deriving DecidableEq, Repr

/-- Modelled from the spec: `niel::swap::SwapInOnDemand` (niel_swap.h is
not under src/), step 3 of the §4.3 protocol — repopulate the payload
from secondary storage and set the entry's `resident` bit. -/
def SwapInOnDemand (m : Mach) : Mach :=
  { m with payload := m.storage, entry := NielSwap.SetResidentBit m.entry }

/-- Modelled from the spec: `Stub::PopulateFrom(object_address)`
(niel_stub.h is not under src/), step 5 of §4.3 — refresh the stub's own
cached state from the resident payload; the stub keeps being a stub. -/
def PopulateFrom (stub payload : Obj) : Obj :=
  { stub with fields := payload.fields }

/-- `sizeof(mirror::Object)`: modelled from the spec; `object.h` is not
under src/.  The `Object` header is two 32-bit words (`klass_`,
`monitor_`), and the preamble guard compares field offsets against it. -/
def sizeofObject : Nat := 8

/-- Direct (fast-path) body of `GetFieldObject` for a non-redirected
object: set the read bit unless the ignore-read flag is up, then read the
reference field. -/
def getFieldObject_direct (o : Obj) (off : Nat) : Obj × Nat :=
  let o1 := if o.ignoreReadFlag then o else { o with readBit := true }
  (o1, o1.fields off)

/-- Direct body of `SetFieldObjectWithoutWriteBarrier`: assign the
reference field, then `SetWriteBit(); SetDirtyBit()` (marvin hooks at the
end of the source body). -/
def setFieldObjectWWB_direct (o : Obj) (off v : Nat) : Obj :=
  { o with fields := setAt o.fields off v, writeBit := true, dirtyBit := true }

/-- Direct body of `GetFieldByte` (`GetFieldPrimitive`). -/
def getFieldByte_direct (o : Obj) (off : Nat) : Obj × Nat :=
  (o, o.fields off)

/-- Direct body of the primitive setters (`SetFieldPrimitive`). -/
def setFieldPrimitive_direct (o : Obj) (off v : Nat) : Obj :=
  { o with fields := setAt o.fields off v }

/-- Direct body of `GetFieldObjectReferenceAddr`: the raw address
`this + field_offset`. -/
def getFieldObjectReferenceAddr_direct (o : Obj) (off : Nat) : Obj × Nat :=
  (o, o.addr + off)

/-- Modelled from the spec: the body of the `SWAP_PREAMBLE` /
`SWAP_PREAMBLE_TEMPLATE` macros from `niel_swap.h` (not under src/),
§4.3 steps 1–6, matching the explicit stub branch written out in
`Object::SetFieldObjectWithoutWriteBarrier`: resolve the entry, take the
handshake, swap in if not resident, forward the operation to the payload
at `object_address`, `PopulateFrom` the payload, release the handshake. -/
def swapPreamble {α : Type} (fuel : Nat) (m : Mach) (op : Obj → Obj × α) :
    Option (Mach × α × List SEv) :=
  match NielSwap.LockFromAppThread fuel m.entry with
  | none => none
  | some e1 =>
    let step :=
      if NielSwap.GetResidentBit e1 = false then
        (SwapInOnDemand { m with entry := e1 }, [SEv.swapIn])
      else ({ m with entry := e1 }, [])
    let (p2, r) := op step.1.payload
    let stub2 := PopulateFrom step.1.obj p2
    some ({ obj := stub2, entry := NielSwap.UnlockFromAppThread step.1.entry,
            payload := p2, storage := step.1.storage },
          r,
          SEv.lockEntry :: step.2 ++ [SEv.forwardOp, SEv.populateFrom, SEv.unlockEntry])

/-- `Object::SetFieldObjectWithoutWriteBarrier` (object-inl.h): the stub
branch is written out explicitly in the source — `if (GetStubFlag())`
lock the table entry, `SwapInOnDemand` if the resident bit is clear,
forward the same call to the object at `GetObjectAddress()` (whose header
has the stub flag clear, so it takes the direct branch), `PopulateFrom`,
unlock, return; otherwise the direct assignment.  There is no
`field_offset >= sizeof(Object)` guard on this accessor. -/
def SetFieldObjectWithoutWriteBarrier (fuel : Nat) (m : Mach) (off v : Nat) :
    Option (Mach × List SEv) :=
  if m.obj.stubFlag then
    match NielSwap.LockFromAppThread fuel m.entry with
    | none => none
    | some e1 =>
      let step :=
        if NielSwap.GetResidentBit e1 = false then
          (SwapInOnDemand { m with entry := e1 }, [SEv.swapIn])
        else ({ m with entry := e1 }, [])
      let p2 := setFieldObjectWWB_direct step.1.payload off v
      let stub2 := PopulateFrom step.1.obj p2
      some ({ obj := stub2, entry := NielSwap.UnlockFromAppThread step.1.entry,
              payload := p2, storage := step.1.storage },
            SEv.lockEntry :: step.2 ++ [SEv.forwardOp, SEv.populateFrom, SEv.unlockEntry])
  else
    some ({ m with obj := setFieldObjectWWB_direct m.obj off v }, [])

/-- `Object::GetFieldObject` (object-inl.h): swap preamble guarded by
`field_offset.Uint32Value() >= sizeof(Object)`, then the direct read. -/
def GetFieldObject (fuel : Nat) (m : Mach) (off : Nat) :
    Option (Mach × Nat × List SEv) :=
  if sizeofObject ≤ off ∧ m.obj.stubFlag = true then
    swapPreamble fuel m (fun o => getFieldObject_direct o off)
  else
    let dr := getFieldObject_direct m.obj off
    some ({ m with obj := dr.1 }, dr.2, [])

/-- `Object::GetFieldByte` (object-inl.h): guarded swap preamble, then
`GetFieldPrimitive`. -/
def GetFieldByte (fuel : Nat) (m : Mach) (off : Nat) :
    Option (Mach × Nat × List SEv) :=
  if sizeofObject ≤ off ∧ m.obj.stubFlag = true then
    swapPreamble fuel m (fun o => getFieldByte_direct o off)
  else
    let dr := getFieldByte_direct m.obj off
    some ({ m with obj := dr.1 }, dr.2, [])

/-- `Object::SetFieldBoolean` (object-inl.h): guarded swap preamble, then
`SetFieldPrimitive`. -/
def SetFieldBoolean (fuel : Nat) (m : Mach) (off v : Nat) :
    Option (Mach × List SEv) :=
  if sizeofObject ≤ off ∧ m.obj.stubFlag = true then
    (swapPreamble fuel m
      (fun o => (setFieldPrimitive_direct o off v, ()))).map (fun r => (r.1, r.2.2))
  else
    some ({ m with obj := setFieldPrimitive_direct m.obj off v }, [])

/-- `Object::SetField32` (object-inl.h): guarded swap preamble, then
`SetFieldPrimitive`. -/
def SetField32 (fuel : Nat) (m : Mach) (off v : Nat) :
    Option (Mach × List SEv) :=
  if sizeofObject ≤ off ∧ m.obj.stubFlag = true then
    (swapPreamble fuel m
      (fun o => (setFieldPrimitive_direct o off v, ()))).map (fun r => (r.1, r.2.2))
  else
    some ({ m with obj := setFieldPrimitive_direct m.obj off v }, [])

/-- `Object::SetField64` (object-inl.h): guarded swap preamble, then
`SetFieldPrimitive`. -/
def SetField64 (fuel : Nat) (m : Mach) (off v : Nat) :
    Option (Mach × List SEv) :=
  if sizeofObject ≤ off ∧ m.obj.stubFlag = true then
    (swapPreamble fuel m
      (fun o => (setFieldPrimitive_direct o off v, ()))).map (fun r => (r.1, r.2.2))
  else
    some ({ m with obj := setFieldPrimitive_direct m.obj off v }, [])

/-- `Object::GetFieldObjectReferenceAddr` (object-inl.h): guarded swap
preamble, then the raw address computation. -/
def GetFieldObjectReferenceAddr (fuel : Nat) (m : Mach) (off : Nat) :
    Option (Mach × Nat × List SEv) :=
  if sizeofObject ≤ off ∧ m.obj.stubFlag = true then
    swapPreamble fuel m (fun o => getFieldObjectReferenceAddr_direct o off)
  else
    let dr := getFieldObjectReferenceAddr_direct m.obj off
    some ({ m with obj := dr.1 }, dr.2, [])

/-- `Object::CasFieldObjectWithoutWriteBarrier` (object-inl.h, lines
791–807): compress old/new refs, then `CompareAndSet` on the atomic word
at `this + field_offset`.  The source body contains no stub check of any
kind, so the operation always acts on the holder's own memory and emits
no stub-protocol events. -/
def CasFieldObjectWithoutWriteBarrier (m : Mach) (off old_value new_value : Nat) :
    Mach × Bool × List SEv :=
  if m.obj.fields off = old_value then
    ({ m with obj := { m.obj with fields := setAt m.obj.fields off new_value } },
     true, [])
  else
    (m, false, [])

/-- `Object::CompareAndExchangeFieldObject` (object-inl.h, lines 827–851):
`compare_exchange_strong` on the atomic word at `this + field_offset`,
returning the witnessed old value.  No stub check in the source body. -/
def CompareAndExchangeFieldObject (m : Mach) (off old_value new_value : Nat) :
    Mach × Nat × List SEv :=
  let old_ref := m.obj.fields off
  if old_ref = old_value then
    ({ m with obj := { m.obj with fields := setAt m.obj.fields off new_value } },
     old_ref, [])
  else
    (m, old_ref, [])

/-- `Object::ExchangeFieldObject` (object-inl.h, lines 853–874):
unconditional atomic `exchange` on the word at `this + field_offset`,
returning the old value.  No stub check in the source body. -/
def ExchangeFieldObject (m : Mach) (off new_value : Nat) :
    Mach × Nat × List SEv :=
  ({ m with obj := { m.obj with fields := setAt m.obj.fields off new_value } },
   m.obj.fields off, [])

/-- A concrete stub-flagged machine: stub at address 100, entry
`entClear` (occupied, kernel-lock clear, non-resident), a resident-slot
payload at 4096, and a storage image whose field 8 holds 77. -/
def machStub : Mach :=
  { obj := { stubFlag := true, ignoreReadFlag := false, readBit := false,
             writeBit := false, dirtyBit := false, addr := 100,
             fields := fun _ => 0 }
    entry := NielSwap.entClear
    payload := { stubFlag := false, ignoreReadFlag := false, readBit := false,
                 writeBit := false, dirtyBit := false, addr := 4096,
                 fields := fun _ => 0 }
    storage := { stubFlag := false, ignoreReadFlag := false, readBit := false,
                 writeBit := false, dirtyBit := false, addr := 4096,
                 fields := fun i => if i = 8 then 77 else 0 } }

end MirrorObject

namespace NielSwap

lemma getResidentBit_incr (e : TableEntry) :
    GetResidentBit (IncrAppLockCounter e) = GetResidentBit e := rfl

lemma getResidentBit_unlock (e : TableEntry) :
    GetResidentBit (UnlockFromAppThread e) = GetResidentBit e := rfl

lemma getKernelLockBit_unlock (e : TableEntry) :
    GetKernelLockBit (UnlockFromAppThread e) = GetKernelLockBit e := rfl

lemma getResidentBit_setResidentBit (e : TableEntry) (h : e.bit_flags < 256) :
    GetResidentBit (SetResidentBit e) = true := by
  have := getBit_setBit e h (i := RESIDENT_BIT_OFFSET) (j := RESIDENT_BIT_OFFSET)
    (by decide) (by decide)
  simpa [GetResidentBit, SetResidentBit] using this

lemma getKernelLockBit_setResidentBit (e : TableEntry) (h : e.bit_flags < 256) :
    GetKernelLockBit (SetResidentBit e) = GetKernelLockBit e := by
  have := getBit_setBit e h (i := RESIDENT_BIT_OFFSET) (j := KERNEL_LOCK_BIT_OFFSET)
    (by decide) (by decide)
  simpa [GetKernelLockBit, SetResidentBit, RESIDENT_BIT_OFFSET,
    KERNEL_LOCK_BIT_OFFSET] using this

lemma setResidentBit_flags_lt (e : TableEntry) (h : e.bit_flags < 256) :
    (SetResidentBit e).bit_flags < 256 :=
  setBit_flags_lt e h (by decide)

lemma setResidentBit_counter (e : TableEntry) :
    (SetResidentBit e).app_lock_counter = e.app_lock_counter := rfl

end NielSwap

namespace MirrorObject

/-- The fully computed stub branch of `SetFieldObjectWithoutWriteBarrier`
when the entry starts non-resident and the kernel-lock bit is clear. -/
lemma setWWB_stub_nonresident (fuel : Nat) (m : Mach) (off v : Nat)
    (hs : m.obj.stubFlag = true) (hk : NielSwap.GetKernelLockBit m.entry = false)
    (hres : NielSwap.GetResidentBit m.entry = false) (hf : 0 < fuel) :
    SetFieldObjectWithoutWriteBarrier fuel m off v = some
      ({ obj := PopulateFrom m.obj (setFieldObjectWWB_direct m.storage off v),
         entry := NielSwap.UnlockFromAppThread (NielSwap.SetResidentBit
           (NielSwap.IncrAppLockCounter (NielSwap.IncrAppLockCounter m.entry))),
         payload := setFieldObjectWWB_direct m.storage off v,
         storage := m.storage },
       [SEv.lockEntry, SEv.swapIn, SEv.forwardOp, SEv.populateFrom, SEv.unlockEntry]) := by
  have hres2 : NielSwap.GetResidentBit
      (NielSwap.IncrAppLockCounter (NielSwap.IncrAppLockCounter m.entry)) = false := hres
  simp [SetFieldObjectWithoutWriteBarrier, hs, NielSwap.lockFromAppThread_of_clear hk hf,
    hres2, SwapInOnDemand]

/-- The fully computed stub branch of `SetFieldObjectWithoutWriteBarrier`
when the entry starts resident and the kernel-lock bit is clear. -/
lemma setWWB_stub_resident (fuel : Nat) (m : Mach) (off v : Nat)
    (hs : m.obj.stubFlag = true) (hk : NielSwap.GetKernelLockBit m.entry = false)
    (hres : NielSwap.GetResidentBit m.entry = true) (hf : 0 < fuel) :
    SetFieldObjectWithoutWriteBarrier fuel m off v = some
      ({ obj := PopulateFrom m.obj (setFieldObjectWWB_direct m.payload off v),
         entry := NielSwap.UnlockFromAppThread
           (NielSwap.IncrAppLockCounter (NielSwap.IncrAppLockCounter m.entry)),
         payload := setFieldObjectWWB_direct m.payload off v,
         storage := m.storage },
       [SEv.lockEntry, SEv.forwardOp, SEv.populateFrom, SEv.unlockEntry]) := by
  have hres2 : NielSwap.GetResidentBit
      (NielSwap.IncrAppLockCounter (NielSwap.IncrAppLockCounter m.entry)) = true := hres
  simp [SetFieldObjectWithoutWriteBarrier, hs, NielSwap.lockFromAppThread_of_clear hk hf,
    hres2]

/-- The fully computed redirected branch of `GetFieldObject` on a
stub-flagged object whose entry is resident and kernel-lock clear. -/
lemma getFieldObject_stub_resident (fuel : Nat) (m : Mach) (off : Nat)
    (hoff : sizeofObject ≤ off) (hs : m.obj.stubFlag = true)
    (hk : NielSwap.GetKernelLockBit m.entry = false)
    (hres : NielSwap.GetResidentBit m.entry = true) (hf : 0 < fuel) :
    GetFieldObject fuel m off = some
      ({ obj := PopulateFrom m.obj (getFieldObject_direct m.payload off).1,
         entry := NielSwap.UnlockFromAppThread
           (NielSwap.IncrAppLockCounter (NielSwap.IncrAppLockCounter m.entry)),
         payload := (getFieldObject_direct m.payload off).1,
         storage := m.storage },
       (getFieldObject_direct m.payload off).2,
       [SEv.lockEntry, SEv.forwardOp, SEv.populateFrom, SEv.unlockEntry]) := by
  have hres2 : NielSwap.GetResidentBit
      (NielSwap.IncrAppLockCounter (NielSwap.IncrAppLockCounter m.entry)) = true := hres
  simp [GetFieldObject, hoff, hs, swapPreamble,
    NielSwap.lockFromAppThread_of_clear hk hf, hres2]

end MirrorObject

open MirrorObject

/-- Claim C3: on an object whose stub flag is set (and whose entry's
kernel-lock bit is clear, so the handshake can be acquired),
`SetFieldObjectWithoutWriteBarrier` performs exactly this sequence:
acquire the stub's `TableEntry` via the app-thread handshake, swap in iff
the `resident` bit is false, forward the original write to the payload at
the entry's `object_address`, refresh the stub's cached state from that
payload (`PopulateFrom`), and release the handshake before returning.
The trace lists the steps in order; afterwards the payload holds the
written value, the stub's cached fields mirror the payload, the entry is
resident, and the handshake has been acquired and released (net counter
`+1` in 8-bit arithmetic). -/
theorem C3_setFieldObject_stub_protocol (fuel : Nat) (m : Mach) (off v : Nat)
    (hs : m.obj.stubFlag = true) (hk : NielSwap.GetKernelLockBit m.entry = false)
    (hw : m.entry.bit_flags < 256) (hf : 0 < fuel) :
    ∃ m1, SetFieldObjectWithoutWriteBarrier fuel m off v = some
        (m1, SEv.lockEntry ::
          (if NielSwap.GetResidentBit m.entry then [] else [SEv.swapIn])
          ++ [SEv.forwardOp, SEv.populateFrom, SEv.unlockEntry])
      ∧ m1.payload = setFieldObjectWWB_direct
          (if NielSwap.GetResidentBit m.entry then m.payload else m.storage) off v
      ∧ m1.payload.fields off = v
      ∧ m1.obj = PopulateFrom m.obj m1.payload
      ∧ m1.obj.fields = m1.payload.fields
      ∧ NielSwap.GetResidentBit m1.entry = true
      ∧ m1.entry.app_lock_counter = (m.entry.app_lock_counter + 1) % 256
      ∧ m1.storage = m.storage := by
  by_cases hres : NielSwap.GetResidentBit m.entry = true
  · refine ⟨Mach.mk (PopulateFrom m.obj (setFieldObjectWWB_direct m.payload off v))
        (NielSwap.UnlockFromAppThread
          (NielSwap.IncrAppLockCounter (NielSwap.IncrAppLockCounter m.entry)))
        (setFieldObjectWWB_direct m.payload off v) m.storage,
      by rw [setWWB_stub_resident fuel m off v hs hk hres hf]; simp [hres],
      by simp [hres], ?_, rfl, rfl, ?_, ?_, rfl⟩
    · simp [setFieldObjectWWB_direct, setAt]
    · simpa [NielSwap.getResidentBit_unlock, NielSwap.getResidentBit_incr] using hres
    · simp only [NielSwap.UnlockFromAppThread, NielSwap.DecrAppLockCounter,
        NielSwap.IncrAppLockCounter]
      omega
  · have hres2 : NielSwap.GetResidentBit m.entry = false := by
      revert hres
      cases NielSwap.GetResidentBit m.entry <;> simp
    refine ⟨Mach.mk (PopulateFrom m.obj (setFieldObjectWWB_direct m.storage off v))
        (NielSwap.UnlockFromAppThread (NielSwap.SetResidentBit
          (NielSwap.IncrAppLockCounter (NielSwap.IncrAppLockCounter m.entry))))
        (setFieldObjectWWB_direct m.storage off v) m.storage,
      by rw [setWWB_stub_nonresident fuel m off v hs hk hres2 hf]; simp [hres2],
      by simp [hres2], ?_, rfl, rfl, ?_, ?_, rfl⟩
    · simp [setFieldObjectWWB_direct, setAt]
    · rw [NielSwap.getResidentBit_unlock]
      exact NielSwap.getResidentBit_setResidentBit _ hw
    · simp only [NielSwap.UnlockFromAppThread, NielSwap.DecrAppLockCounter,
        NielSwap.SetResidentBit, NielSwap.SetBit, NielSwap.IncrAppLockCounter]
      omega

/-- Witness for C3 at the concrete stub machine `machStub` (non-resident
entry) with fuel 2. -/
theorem C3_setFieldObject_stub_protocol_witness :
    machStub.obj.stubFlag = true
    ∧ NielSwap.GetKernelLockBit machStub.entry = false
    ∧ machStub.entry.bit_flags < 256 ∧ 0 < 2
    ∧ ∃ m1, SetFieldObjectWithoutWriteBarrier 2 machStub 8 41 = some
        (m1, SEv.lockEntry ::
          (if NielSwap.GetResidentBit machStub.entry then [] else [SEv.swapIn])
          ++ [SEv.forwardOp, SEv.populateFrom, SEv.unlockEntry])
      ∧ m1.payload = setFieldObjectWWB_direct
          (if NielSwap.GetResidentBit machStub.entry then machStub.payload
           else machStub.storage) 8 41
      ∧ m1.payload.fields 8 = 41
      ∧ m1.obj = PopulateFrom machStub.obj m1.payload
      ∧ m1.obj.fields = m1.payload.fields
      ∧ NielSwap.GetResidentBit m1.entry = true
      ∧ m1.entry.app_lock_counter = (machStub.entry.app_lock_counter + 1) % 256
      ∧ m1.storage = machStub.storage :=
  ⟨rfl, by decide, by decide, by decide,
   C3_setFieldObject_stub_protocol 2 machStub 8 41 rfl (by decide) (by decide) (by decide)⟩

/-- Claim C4: stub round-trip.  On a stub whose entry starts non-resident
(kernel-lock clear so the handshake can proceed, swap-in modelled as
restoring the evicted payload from storage), `SetFieldObjectWithoutWriteBarrier`
followed by `GetFieldObject` at the same field offset returns the written
value, and the entry's `resident` bit is already true when the set
returns and still true when the get returns. -/
theorem C4_stub_round_trip (fuel : Nat) (m : Mach) (off v : Nat)
    (hs : m.obj.stubFlag = true) (hk : NielSwap.GetKernelLockBit m.entry = false)
    (hres : NielSwap.GetResidentBit m.entry = false) (hw : m.entry.bit_flags < 256)
    (hf : 0 < fuel) (hoff : sizeofObject ≤ off) :
    ∃ m1 tr1, SetFieldObjectWithoutWriteBarrier fuel m off v = some (m1, tr1)
      ∧ NielSwap.GetResidentBit m1.entry = true
      ∧ ∃ m2 r tr2, GetFieldObject fuel m1 off = some (m2, r, tr2)
        ∧ r = v
        ∧ NielSwap.GetResidentBit m2.entry = true := by
  have hset := setWWB_stub_nonresident fuel m off v hs hk hres hf
  have hw2 : (NielSwap.IncrAppLockCounter
      (NielSwap.IncrAppLockCounter m.entry)).bit_flags < 256 := hw
  have hres1 : NielSwap.GetResidentBit
      (NielSwap.UnlockFromAppThread (NielSwap.SetResidentBit
        (NielSwap.IncrAppLockCounter (NielSwap.IncrAppLockCounter m.entry)))) = true := by
    rw [NielSwap.getResidentBit_unlock]
    exact NielSwap.getResidentBit_setResidentBit _ hw2
  have hk1 : NielSwap.GetKernelLockBit
      (NielSwap.UnlockFromAppThread (NielSwap.SetResidentBit
        (NielSwap.IncrAppLockCounter (NielSwap.IncrAppLockCounter m.entry)))) = false := by
    rw [NielSwap.getKernelLockBit_unlock, NielSwap.getKernelLockBit_setResidentBit _ hw2]
    exact hk
  refine ⟨_, _, hset, hres1, ?_⟩
  have hs1 : (Mach.mk (PopulateFrom m.obj (setFieldObjectWWB_direct m.storage off v))
      (NielSwap.UnlockFromAppThread (NielSwap.SetResidentBit
        (NielSwap.IncrAppLockCounter (NielSwap.IncrAppLockCounter m.entry))))
      (setFieldObjectWWB_direct m.storage off v) m.storage).obj.stubFlag = true := hs
  have hget := getFieldObject_stub_resident fuel
    (Mach.mk (PopulateFrom m.obj (setFieldObjectWWB_direct m.storage off v))
      (NielSwap.UnlockFromAppThread (NielSwap.SetResidentBit
        (NielSwap.IncrAppLockCounter (NielSwap.IncrAppLockCounter m.entry))))
      (setFieldObjectWWB_direct m.storage off v) m.storage)
    off hoff hs1 hk1 hres1 hf
  refine ⟨_, _, _, hget, ?_, ?_⟩
  · cases hir : m.storage.ignoreReadFlag <;>
      simp [getFieldObject_direct, setFieldObjectWWB_direct, setAt, hir]
  · simpa [NielSwap.getResidentBit_unlock, NielSwap.getResidentBit_incr] using hres1

/-- Witness for C4 at the concrete stub machine `machStub` (non-resident
entry, storage field 8 holding 77) with fuel 2, writing 99 at offset 8. -/
theorem C4_stub_round_trip_witness :
    machStub.obj.stubFlag = true
    ∧ NielSwap.GetKernelLockBit machStub.entry = false
    ∧ NielSwap.GetResidentBit machStub.entry = false
    ∧ machStub.entry.bit_flags < 256 ∧ 0 < 2 ∧ sizeofObject ≤ 8
    ∧ ∃ m1 tr1, SetFieldObjectWithoutWriteBarrier 2 machStub 8 99 = some (m1, tr1)
      ∧ NielSwap.GetResidentBit m1.entry = true
      ∧ ∃ m2 r tr2, GetFieldObject 2 m1 8 = some (m2, r, tr2)
        ∧ r = 99
        ∧ NielSwap.GetResidentBit m2.entry = true :=
  ⟨rfl, by decide, by decide, by decide, by decide, by decide,
   C4_stub_round_trip 2 machStub 8 99 rfl (by decide) (by decide) (by decide)
     (by decide) (by decide)⟩

/-- Claim C9: every accessor carrying the swap preamble guards it with
`field_offset.Uint32Value() >= sizeof(Object)`: at any offset inside the
`Object` header the accessor takes the direct fast path — empty event
trace, operation on the object's own memory — even when the stub flag is
set (the machine `m`, including `m.obj.stubFlag`, is arbitrary here). -/
theorem C9_header_offsets_bypass_stub_check (fuel : Nat) (m : Mach) (off v : Nat)
    (hoff : off < sizeofObject) :
    GetFieldByte fuel m off = some (m, m.obj.fields off, [])
    ∧ SetFieldBoolean fuel m off v
        = some ({ m with obj := setFieldPrimitive_direct m.obj off v }, [])
    ∧ SetField32 fuel m off v
        = some ({ m with obj := setFieldPrimitive_direct m.obj off v }, [])
    ∧ SetField64 fuel m off v
        = some ({ m with obj := setFieldPrimitive_direct m.obj off v }, [])
    ∧ GetFieldObject fuel m off
        = some ({ m with obj := (getFieldObject_direct m.obj off).1 },
                (getFieldObject_direct m.obj off).2, [])
    ∧ GetFieldObjectReferenceAddr fuel m off = some (m, m.obj.addr + off, []) := by
  have hcond : ¬(sizeofObject ≤ off ∧ m.obj.stubFlag = true) := by
    rintro ⟨h1, -⟩
    omega
  refine ⟨?_, ?_, ?_, ?_, ?_, ?_⟩ <;>
    simp [GetFieldByte, SetFieldBoolean, SetField32, SetField64, GetFieldObject,
      GetFieldObjectReferenceAddr, hcond, getFieldByte_direct,
      getFieldObjectReferenceAddr_direct]

/-- Witness for C9 at the stub-flagged machine `machStub`, reading and
writing offset 4 (the `monitor_` word, inside the `Object` header). -/
theorem C9_header_offsets_bypass_stub_check_witness :
    (4 : Nat) < sizeofObject
    ∧ (GetFieldByte 2 machStub 4 = some (machStub, machStub.obj.fields 4, [])
      ∧ SetFieldBoolean 2 machStub 4 9
          = some ({ machStub with obj := setFieldPrimitive_direct machStub.obj 4 9 }, [])
      ∧ SetField32 2 machStub 4 9
          = some ({ machStub with obj := setFieldPrimitive_direct machStub.obj 4 9 }, [])
      ∧ SetField64 2 machStub 4 9
          = some ({ machStub with obj := setFieldPrimitive_direct machStub.obj 4 9 }, [])
      ∧ GetFieldObject 2 machStub 4
          = some ({ machStub with obj := (getFieldObject_direct machStub.obj 4).1 },
                  (getFieldObject_direct machStub.obj 4).2, [])
      ∧ GetFieldObjectReferenceAddr 2 machStub 4
          = some (machStub, machStub.obj.addr + 4, [])) :=
  ⟨by decide, C9_header_offsets_bypass_stub_check 2 machStub 4 9 (by decide)⟩

/-- Counterexample to claim C1 as stated: on the concrete machine
`machStub`, whose stub flag is set and whose entry is occupied and
non-resident, `CasFieldObjectWithoutWriteBarrier`,
`CompareAndExchangeFieldObject` and `ExchangeFieldObject` emit no
stub-protocol event at all — no handshake, no residency check, no
forwarding: the CAS succeeds against the stub's own memory (field 8 goes
0 → 1) while the resident payload is untouched, contradicting "the
operation is redirected through the stub protocol". -/
theorem C1_counterexample_cas_not_redirected :
    machStub.obj.stubFlag = true
    ∧ (CasFieldObjectWithoutWriteBarrier machStub 8 0 1).2.2 = []
    ∧ SEv.lockEntry ∉ (CasFieldObjectWithoutWriteBarrier machStub 8 0 1).2.2
    ∧ (CompareAndExchangeFieldObject machStub 8 0 1).2.2 = []
    ∧ SEv.lockEntry ∉ (CompareAndExchangeFieldObject machStub 8 0 1).2.2
    ∧ (ExchangeFieldObject machStub 8 1).2.2 = []
    ∧ SEv.lockEntry ∉ (ExchangeFieldObject machStub 8 1).2.2
    ∧ (CasFieldObjectWithoutWriteBarrier machStub 8 0 1).2.1 = true
    ∧ (CasFieldObjectWithoutWriteBarrier machStub 8 0 1).1.obj.fields 8 = 1
    ∧ (CasFieldObjectWithoutWriteBarrier machStub 8 0 1).1.payload.fields 8 = 0
    ∧ (CasFieldObjectWithoutWriteBarrier machStub 8 0 1).1.entry = machStub.entry := by
  refine ⟨rfl, ?_, ?_, ?_, ?_, ?_, ?_, ?_, ?_, ?_, ?_⟩ <;>
    simp [CasFieldObjectWithoutWriteBarrier, CompareAndExchangeFieldObject,
      ExchangeFieldObject, machStub, setAt, NielSwap.entClear]

/-- Claim C1 amended: the stub-indirection check is *not* applied to the
object-reference compare-and-swap and exchange accessors.
`CasFieldObjectWithoutWriteBarrier`, `CompareAndExchangeFieldObject` and
`ExchangeFieldObject` contain no stub check: on every machine — stub flag
set or not — they emit no stub-protocol event, never touch the table
entry, the payload or the storage image, and act only on the holder's own
memory.  (The get/set accessors and the visitors are redirected, per C3.) -/
theorem C1_amended_cas_exchange_never_redirect (m : Mach) (off old_value new_value : Nat) :
    ((CasFieldObjectWithoutWriteBarrier m off old_value new_value).2.2 = []
      ∧ (CasFieldObjectWithoutWriteBarrier m off old_value new_value).1.entry = m.entry
      ∧ (CasFieldObjectWithoutWriteBarrier m off old_value new_value).1.payload = m.payload
      ∧ (CasFieldObjectWithoutWriteBarrier m off old_value new_value).1.storage = m.storage)
    ∧ ((CompareAndExchangeFieldObject m off old_value new_value).2.2 = []
      ∧ (CompareAndExchangeFieldObject m off old_value new_value).1.entry = m.entry
      ∧ (CompareAndExchangeFieldObject m off old_value new_value).1.payload = m.payload
      ∧ (CompareAndExchangeFieldObject m off old_value new_value).1.storage = m.storage
      ∧ (CompareAndExchangeFieldObject m off old_value new_value).2.1 = m.obj.fields off)
    ∧ ((ExchangeFieldObject m off new_value).2.2 = []
      ∧ (ExchangeFieldObject m off new_value).1.entry = m.entry
      ∧ (ExchangeFieldObject m off new_value).1.payload = m.payload
      ∧ (ExchangeFieldObject m off new_value).1.storage = m.storage
      ∧ (ExchangeFieldObject m off new_value).2.1 = m.obj.fields off
      ∧ (ExchangeFieldObject m off new_value).1.obj.fields off = new_value) := by
  unfold CasFieldObjectWithoutWriteBarrier CompareAndExchangeFieldObject ExchangeFieldObject
  refine ⟨?_, ?_, ?_⟩ <;> by_cases h : m.obj.fields off = old_value <;> simp [h, setAt]

/-!
Part 3: deallocation integration over
`runtime/gc/space/large_object_space.cc`.  Each `Free` is embedded as a
function returning the freed size, the updated space, and an ordered
event trace; the temporal claim is that the `niel::swap::GcRecordFree`
hook strictly precedes every event that releases the object's memory for
reuse.
-/

namespace LOSpace

/-- Events emitted by the free paths, in statement order. -/
inductive Ev where
  /-- `niel::swap::GcRecordFree(self, ptr)` — the free-notification hook. -/
  | gcRecordFree (self obj : Nat)
  /-- `large_objects_.erase(it)` in `LargeObjectMapSpace::Free` — the
  `MemMap` is destroyed and its pages returned. -/
  | eraseLargeObject (obj : Nat)
  /-- `madvise(obj, allocation_size, MADV_DONTNEED)` in
  `FreeListSpace::Free` — the backing pages are released. -/
  | madviseDontNeed (obj size : Nat)
  /-- `info->SetByteSize(allocation_size, true)` plus the coalescing and
  `free_blocks_` insertion in `FreeListSpace::Free` — the block becomes
  allocatable again. -/
  | markBlockFree (obj size : Nat)
  /-- `NIEL_INST_RECORD_FREE(self, this, allocation_size, 1)`. -/
  | instRecordFree (self size : Nat)
  deriving DecidableEq, Repr

/-- `LargeObjectMapSpace`: the `large_objects_` map from object address
to its `MemMap` size, plus the allocation counters the free path
updates. -/
structure LargeObjectMapSpace where
  large_objects : List (Nat × Nat)
  num_bytes_allocated : Nat
  num_objects_allocated : Nat
  deriving DecidableEq, Repr

/-- `LargeObjectMapSpace::Free(self, ptr)`: first statement is the
`GcRecordFree` hook; then the map lookup (a miss is `LOG(FATAL)`,
modelled as `none`), the counter updates and the erase. -/
def LargeObjectMapSpace.Free (s : LargeObjectMapSpace) (self ptr : Nat) :
    Option (Nat × LargeObjectMapSpace × List Ev) :=
  match s.large_objects.lookup ptr with
  | none => none
  | some map_size =>
    some (map_size,
      { large_objects := s.large_objects.eraseP (fun p => p.1 == ptr),
        num_bytes_allocated := s.num_bytes_allocated - map_size,
        num_objects_allocated := s.num_objects_allocated - 1 },
      [Ev.gcRecordFree self ptr, Ev.eraseLargeObject ptr,
       Ev.instRecordFree self map_size])

/-- `FreeListSpace`: the allocated blocks recorded by `allocation_info_`
(address, byte size), plus the counters.  The free-block set and
coalescing bookkeeping are summarized by the `markBlockFree` event. -/
structure FreeListSpace where
  blocks : List (Nat × Nat)
  num_bytes_allocated : Nat
  num_objects_allocated : Nat
  deriving DecidableEq, Repr

/-- `FreeListSpace::Free(self, obj)`: first statement is the
`GcRecordFree` hook; then `madvise(MADV_DONTNEED)`, the mark-free plus
coalescing under the lock, and the counter updates.  An unknown block
(`DCHECK(!info->IsFree())` territory) is modelled as `none`. -/
def FreeListSpace.Free (s : FreeListSpace) (self obj : Nat) :
    Option (Nat × FreeListSpace × List Ev) :=
  match s.blocks.lookup obj with
  | none => none
  | some allocation_size =>
    some (allocation_size,
      { blocks := s.blocks.eraseP (fun p => p.1 == obj),
        num_bytes_allocated := s.num_bytes_allocated - allocation_size,
        num_objects_allocated := s.num_objects_allocated - 1 },
      [Ev.gcRecordFree self obj, Ev.madviseDontNeed obj allocation_size,
       Ev.markBlockFree obj allocation_size, Ev.instRecordFree self allocation_size])

/-- `LargeObjectSpace::FreeList(self, num_ptrs, ptrs)` as dispatched to a
`LargeObjectMapSpace`: `total += Free(self, ptrs[i])` for each pointer,
traces concatenated in order.  This is also the path taken by
`SweepCallback` during a bitmap sweep. -/
def LargeObjectMapSpace.FreeList (s : LargeObjectMapSpace) (self : Nat) :
    List Nat → Option (Nat × LargeObjectMapSpace × List Ev)
  | [] => some (0, s, [])
  | ptr :: rest =>
    match s.Free self ptr with
    | none => none
    | some (sz, s1, tr) =>
      match s1.FreeList self rest with
      | none => none
      | some (total, s2, tr2) => some (sz + total, s2, tr ++ tr2)

/-- `LargeObjectSpace::FreeList` as dispatched to a `FreeListSpace`. -/
def FreeListSpace.FreeList (s : FreeListSpace) (self : Nat) :
    List Nat → Option (Nat × FreeListSpace × List Ev)
  | [] => some (0, s, [])
  | ptr :: rest =>
    match s.Free self ptr with
    | none => none
    | some (sz, s1, tr) =>
      match s1.FreeList self rest with
      | none => none
      | some (total, s2, tr2) => some (sz + total, s2, tr ++ tr2)

/-- Does this event release the memory of `obj` for reuse? -/
def isReleaseFor (obj : Nat) : Ev → Bool
  | Ev.eraseLargeObject o => o == obj
  | Ev.madviseDontNeed o _ => o == obj
  | Ev.markBlockFree o _ => o == obj
  | _ => false

/-- Is this event the free-notification hook for `(self, obj)`? -/
def isHookFor (self obj : Nat) : Ev → Bool
  | Ev.gcRecordFree s o => s == self && o == obj
  | _ => false

/-- The temporal property of §4.4: in the trace, every event releasing an
object's memory is strictly preceded by the `GcRecordFree` hook for that
object on the freeing thread. -/
def hookBeforeRelease (self : Nat) (tr : List Ev) : Prop :=
  ∀ i obj ev, tr.get? i = some ev → isReleaseFor obj ev = true →
    ∃ j ev2, j < i ∧ tr.get? j = some ev2 ∧ isHookFor self obj ev2 = true

lemma hookBeforeRelease_append {self : Nat} {t1 t2 : List Ev}
    (h1 : hookBeforeRelease self t1) (h2 : hookBeforeRelease self t2) :
    hookBeforeRelease self (t1 ++ t2) := by
  intro i obj ev hget hrel
  by_cases hi : i < t1.length
  · obtain ⟨j, ev2, hj, hg2, hh⟩ := h1 i obj ev (by rwa [List.get?_append hi] at hget) hrel
    exact ⟨j, ev2, hj, by rw [List.get?_append (by omega)]; exact hg2, hh⟩
  · have hi2 : t1.length ≤ i := by omega
    obtain ⟨j, ev2, hj, hg2, hh⟩ := h2 (i - t1.length) obj ev
      (by rwa [List.get?_append_right hi2] at hget) hrel
    refine ⟨j + t1.length, ev2, by omega, ?_, hh⟩
    rw [List.get?_append_right (by omega)]
    simpa using hg2

end LOSpace

namespace LOSpace

lemma hookBeforeRelease_nil (self : Nat) : hookBeforeRelease self [] := by
  intro i obj ev hget
  simp at hget

lemma hookBeforeRelease_mapTrace (self ptr sz : Nat) :
    hookBeforeRelease self
      [Ev.gcRecordFree self ptr, Ev.eraseLargeObject ptr, Ev.instRecordFree self sz] := by
  intro i obj ev hget hrel
  match i with
  | 0 =>
    simp only [List.get?] at hget
    cases hget
    simp [isReleaseFor] at hrel
  | 1 =>
    simp only [List.get?] at hget
    cases hget
    have : obj = ptr := by
      simp [isReleaseFor] at hrel
      omega
    subst this
    exact ⟨0, Ev.gcRecordFree self obj, by omega, rfl, by simp [isHookFor]⟩
  | 2 =>
    simp only [List.get?] at hget
    cases hget
    simp [isReleaseFor] at hrel
  | n + 3 =>
    simp at hget

lemma hookBeforeRelease_freeListTrace (self obj sz : Nat) :
    hookBeforeRelease self
      [Ev.gcRecordFree self obj, Ev.madviseDontNeed obj sz,
       Ev.markBlockFree obj sz, Ev.instRecordFree self sz] := by
  intro i o ev hget hrel
  match i with
  | 0 =>
    simp only [List.get?] at hget
    cases hget
    simp [isReleaseFor] at hrel
  | 1 =>
    simp only [List.get?] at hget
    cases hget
    have : o = obj := by
      simp [isReleaseFor] at hrel
      omega
    subst this
    exact ⟨0, Ev.gcRecordFree self o, by omega, rfl, by simp [isHookFor]⟩
  | 2 =>
    simp only [List.get?] at hget
    cases hget
    have : o = obj := by
      simp [isReleaseFor] at hrel
      omega
    subst this
    exact ⟨0, Ev.gcRecordFree self o, by omega, rfl, by simp [isHookFor]⟩
  | 3 =>
    simp only [List.get?] at hget
    cases hget
    simp [isReleaseFor] at hrel
  | n + 4 =>
    simp at hget

lemma mapFree_hookBeforeRelease (s : LargeObjectMapSpace) (self ptr : Nat)
    (r : Nat × LargeObjectMapSpace × List Ev) (h : s.Free self ptr = some r) :
    hookBeforeRelease self r.2.2 := by
  unfold LargeObjectMapSpace.Free at h
  cases hl : s.large_objects.lookup ptr with
  | none => rw [hl] at h; cases h
  | some sz =>
    rw [hl] at h
    cases h
    exact hookBeforeRelease_mapTrace self ptr sz

lemma freeListSpaceFree_hookBeforeRelease (s : FreeListSpace) (self obj : Nat)
    (r : Nat × FreeListSpace × List Ev) (h : s.Free self obj = some r) :
    hookBeforeRelease self r.2.2 := by
  unfold FreeListSpace.Free at h
  cases hl : s.blocks.lookup obj with
  | none => rw [hl] at h; cases h
  | some sz =>
    rw [hl] at h
    cases h
    exact hookBeforeRelease_freeListTrace self obj sz

lemma mapFreeList_hookBeforeRelease (self : Nat) :
    ∀ (ptrs : List Nat) (s : LargeObjectMapSpace)
      (r : Nat × LargeObjectMapSpace × List Ev),
      s.FreeList self ptrs = some r → hookBeforeRelease self r.2.2 := by
  intro ptrs
  induction ptrs with
  | nil =>
    intro s r h
    cases h
    exact hookBeforeRelease_nil self
  | cons ptr rest ih =>
    intro s r h
    unfold LargeObjectMapSpace.FreeList at h
    cases h1 : s.Free self ptr with
    | none => rw [h1] at h; cases h
    | some r1 =>
      rw [h1] at h
      obtain ⟨sz, s1, tr⟩ := r1
      dsimp only at h
      cases h2 : LargeObjectMapSpace.FreeList s1 self rest with
      | none => rw [h2] at h; cases h
      | some r2 =>
        rw [h2] at h
        obtain ⟨total, s2, tr2⟩ := r2
        dsimp only at h
        cases h
        exact hookBeforeRelease_append
          (mapFree_hookBeforeRelease s self ptr (sz, s1, tr) h1) (ih s1 _ h2)

lemma freeListSpaceFreeList_hookBeforeRelease (self : Nat) :
    ∀ (ptrs : List Nat) (s : FreeListSpace)
      (r : Nat × FreeListSpace × List Ev),
      s.FreeList self ptrs = some r → hookBeforeRelease self r.2.2 := by
  intro ptrs
  induction ptrs with
  | nil =>
    intro s r h
    cases h
    exact hookBeforeRelease_nil self
  | cons ptr rest ih =>
    intro s r h
    unfold FreeListSpace.FreeList at h
    cases h1 : s.Free self ptr with
    | none => rw [h1] at h; cases h
    | some r1 =>
      rw [h1] at h
      obtain ⟨sz, s1, tr⟩ := r1
      dsimp only at h
      cases h2 : FreeListSpace.FreeList s1 self rest with
      | none => rw [h2] at h; cases h
      | some r2 =>
        rw [h2] at h
        obtain ⟨total, s2, tr2⟩ := r2
        dsimp only at h
        cases h
        exact hookBeforeRelease_append
          (freeListSpaceFree_hookBeforeRelease s self ptr (sz, s1, tr) h1) (ih s1 _ h2)

/-- A map space holding one 4096-byte large object at address 100. -/
def losMapEx : LargeObjectMapSpace := ⟨[(100, 4096)], 4096, 1⟩

/-- A free-list space holding blocks at addresses 100 and 300. -/
def losFLEx : FreeListSpace := ⟨[(100, 4096), (300, 8192)], 12288, 2⟩

end LOSpace

open LOSpace

/-- Claim C5: every path that frees a large object —
`LargeObjectMapSpace::Free`, `FreeListSpace::Free`, and both via
`FreeList` (the routine a bitmap sweep's `SweepCallback` invokes) — emits
the `niel::swap::GcRecordFree(self, obj)` hook strictly before any event
that makes that object's memory available for reuse (the map erase, the
`madvise(MADV_DONTNEED)`, the mark-free/coalesce bookkeeping). -/
theorem C5_free_hook_before_reuse :
    (∀ (s : LargeObjectMapSpace) (self ptr : Nat) r,
        s.Free self ptr = some r → hookBeforeRelease self r.2.2)
    ∧ (∀ (s : FreeListSpace) (self obj : Nat) r,
        s.Free self obj = some r → hookBeforeRelease self r.2.2)
    ∧ (∀ (s : LargeObjectMapSpace) (self : Nat) (ptrs : List Nat) r,
        s.FreeList self ptrs = some r → hookBeforeRelease self r.2.2)
    ∧ (∀ (s : FreeListSpace) (self : Nat) (ptrs : List Nat) r,
        s.FreeList self ptrs = some r → hookBeforeRelease self r.2.2) :=
  ⟨mapFree_hookBeforeRelease,
   freeListSpaceFree_hookBeforeRelease,
   fun s self ptrs r h => mapFreeList_hookBeforeRelease self ptrs s r h,
   fun s self ptrs r h => freeListSpaceFreeList_hookBeforeRelease self ptrs s r h⟩

/-- Witness for C5: concrete frees on `losMapEx` and `losFLEx` by thread
1, including a two-object bulk `FreeList`, each yielding a trace in which
the hook precedes every release event. -/
theorem C5_free_hook_before_reuse_witness :
    (losMapEx.Free 1 100
        = some (4096, ⟨[], 0, 0⟩,
            [Ev.gcRecordFree 1 100, Ev.eraseLargeObject 100, Ev.instRecordFree 1 4096])
      ∧ hookBeforeRelease 1
          [Ev.gcRecordFree 1 100, Ev.eraseLargeObject 100, Ev.instRecordFree 1 4096])
    ∧ (losFLEx.FreeList 1 [100, 300]
        = some (12288, ⟨[], 0, 0⟩,
            [Ev.gcRecordFree 1 100, Ev.madviseDontNeed 100 4096,
             Ev.markBlockFree 100 4096, Ev.instRecordFree 1 4096,
             Ev.gcRecordFree 1 300, Ev.madviseDontNeed 300 8192,
             Ev.markBlockFree 300 8192, Ev.instRecordFree 1 8192])
      ∧ hookBeforeRelease 1
          [Ev.gcRecordFree 1 100, Ev.madviseDontNeed 100 4096,
           Ev.markBlockFree 100 4096, Ev.instRecordFree 1 4096,
           Ev.gcRecordFree 1 300, Ev.madviseDontNeed 300 8192,
           Ev.markBlockFree 300 8192, Ev.instRecordFree 1 8192]) :=
  ⟨⟨by decide,
    C5_free_hook_before_reuse.1 losMapEx 1 100
      (4096, ⟨[], 0, 0⟩,
        [Ev.gcRecordFree 1 100, Ev.eraseLargeObject 100, Ev.instRecordFree 1 4096])
      (by decide)⟩,
   ⟨by decide,
    C5_free_hook_before_reuse.2.2.2 losFLEx 1 [100, 300]
      (12288, ⟨[], 0, 0⟩,
        [Ev.gcRecordFree 1 100, Ev.madviseDontNeed 100 4096,
         Ev.markBlockFree 100 4096, Ev.instRecordFree 1 4096,
         Ev.gcRecordFree 1 300, Ev.madviseDontNeed 300 8192,
         Ev.markBlockFree 300 8192, Ev.instRecordFree 1 8192])
      (by decide)⟩⟩

/-!
Part 4: the sticky no-swap exclusions.  (a) the zygote large-object
branch of `Heap::AllocObjectWithAllocator` (`runtime/gc/heap-inl.h`,
lines 94–120); (b) `JavaVMExt::AddGlobalRef` / `AddWeakGlobalRef`
(java_vm_ext.cc, shipped in the same source snapshot).
-/

namespace NoSwap

/-- An object as the exclusion paths see it: its identity and the sticky
no-swap header flag. -/
structure HObj where
  ident : Nat
  noSwapFlag : Bool
  deriving DecidableEq, Repr

/-- Modelled from the spec: `mirror::Object::SetNoSwapFlag()` (object.h
is not under src/) sets the sticky no-swap header flag that permanently
excludes the object from becoming a swap target. -/
def SetNoSwapFlag (o : HObj) : HObj :=
  { o with noSwapFlag := true }

/-- Outcome of the large-object branch of `Heap::AllocObjectWithAllocator`. -/
inductive AllocResult where
  /-- `return obj` out of the `AllocLargeObject` success path. -/
  | fromLOS (o : HObj)
  /-- `AllocLargeObject` returned null: clear the OOM exception and retry
  in the normal spaces (recursive call with `kCheckLargeObject = false`). -/
  | fallbackToNormalSpaces
  deriving DecidableEq, Repr

/-- The `kCheckLargeObject && ShouldAllocLargeObject` branch of
`Heap::AllocObjectWithAllocator` (heap-inl.h lines 96–120): on a
successful large-object allocation, if `Runtime::Current()->IsZygote()`
then `obj->SetNoSwapFlag()` before the `return obj`; on failure, fall
back to the normal spaces. -/
def AllocObjectWithAllocator_largeObject (isZygote : Bool) (losResult : Option HObj) :
    AllocResult :=
  match losResult with
  | some obj => AllocResult.fromLOS (if isZygote then SetNoSwapFlag obj else obj)
  | none => AllocResult.fallbackToNormalSpaces

/-- `JavaVMExt` as the global-reference paths see it: the global and weak
global indirect reference tables. -/
structure JavaVMExt where
  globals : List HObj
  weak_globals : List HObj
  deriving DecidableEq, Repr

/-- `JavaVMExt::AddGlobalRef(self, obj)`: null in, null out; otherwise
`obj->SetNoSwapFlag()` (the marvin hook) runs first, then the object is
added to `globals_` and the reference handed out refers to the flagged
object. -/
def JavaVMExt.AddGlobalRef (vm : JavaVMExt) (obj : Option HObj) :
    JavaVMExt × Option HObj :=
  match obj with
  | none => (vm, none)
  | some o =>
    let o2 := SetNoSwapFlag o
    ({ vm with globals := vm.globals ++ [o2] }, some o2)

/-- `JavaVMExt::AddWeakGlobalRef(self, obj)`: same shape against
`weak_globals_`. -/
def JavaVMExt.AddWeakGlobalRef (vm : JavaVMExt) (obj : Option HObj) :
    JavaVMExt × Option HObj :=
  match obj with
  | none => (vm, none)
  | some o =>
    let o2 := SetNoSwapFlag o
    ({ vm with weak_globals := vm.weak_globals ++ [o2] }, some o2)

end NoSwap

open NoSwap

/-- Claim C6: the sticky no-swap flag is set before the object is handed
out in exactly the claimed cases.  (a) A large object successfully
allocated while the process is the zygote is returned with
`SetNoSwapFlag` applied (and without it when not the zygote, showing the
flag comes from this call site); (b) creating a JNI global or weak global
reference to a non-null object sets the flag on that object before the
reference is returned — the handed-out reference and the stored table
entry both carry the flag — while a null object yields a null reference
and an untouched table. -/
theorem C6_no_swap_flag_set_before_handout (obj : HObj) (vm : JavaVMExt) :
    (AllocObjectWithAllocator_largeObject true (some obj)
        = AllocResult.fromLOS (SetNoSwapFlag obj)
      ∧ (SetNoSwapFlag obj).noSwapFlag = true
      ∧ AllocObjectWithAllocator_largeObject false (some obj)
          = AllocResult.fromLOS obj
      ∧ AllocObjectWithAllocator_largeObject true none
          = AllocResult.fallbackToNormalSpaces)
    ∧ ((vm.AddGlobalRef (some obj)).2 = some (SetNoSwapFlag obj)
      ∧ (vm.AddGlobalRef (some obj)).1.globals = vm.globals ++ [SetNoSwapFlag obj]
      ∧ (vm.AddGlobalRef none) = (vm, none))
    ∧ ((vm.AddWeakGlobalRef (some obj)).2 = some (SetNoSwapFlag obj)
      ∧ (vm.AddWeakGlobalRef (some obj)).1.weak_globals
          = vm.weak_globals ++ [SetNoSwapFlag obj]
      ∧ (vm.AddWeakGlobalRef none) = (vm, none)) :=
  ⟨⟨rfl, rfl, rfl, rfl⟩, ⟨rfl, rfl, rfl⟩, ⟨rfl, rfl, rfl⟩⟩
